import Mathlib

/-!
Shallow embedding of the transaction-manager application's categorization and
aggregation logic.

Sources embedded here:
- supabase/migrations/20250820050744_*.sql : final version of the
  auto_categorize_transaction trigger function (credit-card override with four
  phrasings, then rule lookup keyed on raw payment_reason).
- supabase/migrations/20250820045107_*.sql : sanitize_transactions_nulls
  trigger function plus its BEFORE INSERT / BEFORE UPDATE triggers.
- src/components/TransactionCategorizer.tsx : client-side effective payment
  reason, transaction filter, category/month aggregation, month-over-month
  delta.
- src/components/TransactionVisualizationsFixed.tsx : the second filter
  variant (it drops uncategorized rows) and the same aggregation pipeline.

All numeric amounts are modelled as rationals; JavaScript Date values are
modelled as (year, 0-based month, day-of-month, milliseconds-of-day) records,
compared lexicographically, which agrees with the epoch-milliseconds order on
fields lying in their calendar ranges.
-/

set_option autoImplicit false

namespace TxApp

/-- Model of a JavaScript Date restricted to the fields the code reads and
writes: getFullYear, getMonth (0-based), getDate (day of month), and the
time of day collapsed to milliseconds. -/
structure DateTime where
  year : Int
  month : Int
  day : Int
  ms : Int
  deriving DecidableEq, Repr

/-- JavaScript Date comparison is comparison of epoch milliseconds; on
field-valid dates that order is lexicographic in
(year, month, day, time-of-day). -/
def DateTime.jsLt (a b : DateTime) : Bool :=
  decide (a.year < b.year) ||
    (a.year == b.year && (decide (a.month < b.month) ||
      (a.month == b.month && (decide (a.day < b.day) ||
        (a.day == b.day && decide (a.ms < b.ms))))))

/-- Gregorian leap-year test, as implemented by the JavaScript Date
month/day normalization. -/
def isLeapYear (y : Int) : Bool :=
  y % 4 == 0 && (y % 100 != 0 || y % 400 == 0)

/-- Number of days of a (0-based) calendar month, used by the JavaScript Date
normalization that setMonth performs. -/
def daysInMonth (y m : Int) : Int :=
  if m == 1 then (if isLeapYear y then 29 else 28)
  else if m == 3 || m == 5 || m == 8 || m == 10 then 30
  else 31

/-- Semantics of the JavaScript call d.setMonth(d.getMonth() - n): the month
index is decremented by n and renormalized; if the day-of-month does not exist
in the resulting month the date rolls over into the following month (the
day-of-month excess is at most 3, so a single carry suffices). -/
def jsSetMonthSub (d : DateTime) (n : Int) : DateTime :=
  let total := d.year * 12 + d.month - n
  if d.day > daysInMonth (total / 12) (total % 12) then
    { year := (total + 1) / 12, month := (total + 1) % 12,
      day := d.day - daysInMonth (total / 12) (total % 12), ms := d.ms }
  else
    { year := total / 12, month := total % 12, day := d.day, ms := d.ms }

/-- Cutoff date of the client month filter
(TransactionCategorizer.tsx lines 886-891, TransactionVisualizationsFixed.tsx
lines 97-100): new Date(), setMonth(getMonth() - selectedMonths), setDate(1),
setHours(0,0,0,0). -/
def cutoffDate (now : DateTime) (selectedMonths : Int) : DateTime :=
  let c := jsSetMonthSub now selectedMonths
  { c with day := 1, ms := 0 }

/-- Linearized month index year*12 + month; the claims phrase the month window
as a comparison of calendar months, which this index expresses. -/
def monthIndex (d : DateTime) : Int :=
  d.year * 12 + d.month

/-- One transactions row / client Transaction record. Nullable text columns
are Options; amount is a rational. -/
structure Transaction where
  payment_reason : Option String
  amount : Rat
  currency : String
  transaction_timestamp_local : DateTime
  category : Option String
  description : Option String
  transaction_type : Option String
  transferation_type : Option String
  transferation_destination : Option String
  user_id : Option String
  deriving DecidableEq, Repr

/-- One categorization_rules row: payment_reason and category are NOT NULL
columns, user_id is nullable. -/
structure CategorizationRule where
  user_id : Option String
  payment_reason : String
  category : String
  deriving DecidableEq, Repr

/-- Postgres lower() restricted to ASCII letters, which is what the stored
values exercise. -/
def pgLower (s : String) : String :=
  ⟨s.data.map Char.toLower⟩

/-- Postgres trim(x) with no explicit character argument removes leading and
trailing space characters (U+0020) only. -/
def pgTrim (s : String) : String :=
  ⟨((s.data.dropWhile (fun c => c == ' ')).reverse.dropWhile (fun c => c == ' ')).reverse⟩

/-- Trimming of surrounding whitespace in the usual sense (spaces, tabs,
newlines), used to state the sanitation claim as written; the code's pgTrim
removes spaces only. -/
def wsTrim (s : String) : String :=
  ⟨((s.data.dropWhile Char.isWhitespace).reverse.dropWhile Char.isWhitespace).reverse⟩

/-- Math.abs on rationals. -/
def jsAbs (q : Rat) : Rat :=
  if q < 0 then -q else q

/-- Transferation types recognized by the credit-card-payment override in the
final auto_categorize_transaction
(migration 20250820050744, lines 13-18). -/
def creditCardTransferationTypes : List String :=
  ["Pago de Tarjeta de Crédito Nacional",
   "Pago de Tarjeta de Crédito Internacional",
   "Pago con Tarjeta de Crédito Nacional",
   "Pago con Tarjeta de Crédito Internacional"]

/-- SQL test NEW.transferation_type IN (...): NULL makes the test false. -/
def isCreditCardPayment (tt : Option String) : Bool :=
  match tt with
  | some s => creditCardTransferationTypes.contains s
  | none => false

/-- Rule lookup of the trigger: SELECT cr.category INTO NEW.category FROM
categorization_rules cr WHERE cr.payment_reason = NEW.payment_reason LIMIT 1.
The query has no user_id predicate and no ORDER BY; the function is SECURITY
DEFINER, so row-level security does not restrict the scan. We model LIMIT 1
as the first matching row in table order. SELECT INTO with zero rows leaves
NEW.category NULL. -/
def lookupRuleCategory (rules : List CategorizationRule) (p : String) : Option String :=
  (rules.find? (fun cr => cr.payment_reason == p)).map (fun cr => cr.category)

/-- Trigger function auto_categorize_transaction, final version
(migration 20250820050744, lines 5-32): priority 1 the credit-card override,
priority 2 the rule lookup guarded by NEW.category IS NULL AND
NEW.payment_reason IS NOT NULL. -/
def auto_categorize_transaction (rules : List CategorizationRule)
    (NEW : Transaction) : Transaction :=
  if isCreditCardPayment NEW.transferation_type then
    { NEW with category := some "Pago de Tarjeta de Crédito" }
  else
    match NEW.category, NEW.payment_reason with
    | none, some p => { NEW with category := lookupRuleCategory rules p }
    | _, _ => NEW

/-- Trigger function sanitize_transactions_nulls
(migration 20250820045107, lines 10-21): IF NEW.transferation_destination IS
NOT NULL AND trim(lower(NEW.transferation_destination)) = 'null' THEN set it
to NULL. -/
def sanitize_transactions_nulls (NEW : Transaction) : Transaction :=
  match NEW.transferation_destination with
  | some d =>
    if pgTrim (pgLower d) = "null" then
      { NEW with transferation_destination := none }
    else NEW
  | none => NEW

/-- Row as stored on INSERT. The BEFORE INSERT triggers on transactions fire
in name order: auto_categorize_transactions (migration 20250820050427), then
trg_auto_categorize_transaction (migration 20250820045828), then
trg_sanitize_transactions_nulls_ins (migration 20250820045107); the user-id
stamping triggers touch no field modelled here. -/
def insertTransactionRow (rules : List CategorizationRule)
    (row : Transaction) : Transaction :=
  sanitize_transactions_nulls
    (auto_categorize_transaction rules (auto_categorize_transaction rules row))

/-- Row as stored on UPDATE. The BEFORE UPDATE triggers fire in name order:
trg_auto_categorize_transaction, then trg_sanitize_transactions_nulls_upd. -/
def updateTransactionRow (rules : List CategorizationRule)
    (row : Transaction) : Transaction :=
  sanitize_transactions_nulls (auto_categorize_transaction rules row)

/-- Client predicate isTransferToThird
(TransactionCategorizer.tsx lines 2112-2113): transaction_type is
"Transferencia" and transferation_type is the singular or plural
third-party-transfer phrasing. -/
def isTransferToThird (t : Transaction) : Bool :=
  t.transaction_type == some "Transferencia" &&
    (t.transferation_type == some "Transferencia a Terceros" ||
      t.transferation_type == some "Transferencias a Terceros")

/-- Client effectivePaymentReason
(TransactionCategorizer.tsx lines 2116-2118): transferation_type for
third-party transfers, payment_reason otherwise. -/
def effectivePaymentReason (t : Transaction) : Option String :=
  if isTransferToThird t then t.transferation_type else t.payment_reason

/-- Key on which the database trigger matches categorization rules: the
WHERE clause of the rule lookup compares cr.payment_reason with
NEW.payment_reason, nothing else. -/
def dbRuleMatchKey (t : Transaction) : Option String :=
  t.payment_reason

/-- JavaScript truthiness of a nullable string: null and the empty string are
falsy. -/
def strTruthy (o : Option String) : Bool :=
  match o with
  | none => false
  | some s => s != ""

/-- Category excluded from all analytics. -/
def excludedCategory : String := "Pago de Tarjeta de Crédito"

/-- Month-window test shared by both client filters: when selectedMonths is
below the all-time sentinel 999, keep the transaction unless its date is
strictly before the cutoff. -/
def monthWindowKeep (now : DateTime) (selectedMonths : Int) (t : Transaction) : Bool :=
  if selectedMonths < 999 then
    ! DateTime.jsLt t.transaction_timestamp_local (cutoffDate now selectedMonths)
  else true

/-- Filter predicate of TransactionCategorizer.tsx (lines 872-899): always
drop the excluded category; when categories are selected and the category is
truthy, require membership; then apply the month window. -/
def keepTransactionTC (sel : List String) (selectedMonths : Int) (now : DateTime)
    (t : Transaction) : Bool :=
  if t.category == some excludedCategory then false
  else if decide (0 < sel.length) && strTruthy t.category then
    sel.contains (t.category.getD "") && monthWindowKeep now selectedMonths t
  else monthWindowKeep now selectedMonths t

/-- filteredTransactions of TransactionCategorizer.tsx. -/
def filteredTransactionsTC (sel : List String) (selectedMonths : Int)
    (now : DateTime) (ts : List Transaction) : List Transaction :=
  ts.filter (keepTransactionTC sel selectedMonths now)

/-- Filter predicate of TransactionVisualizationsFixed.tsx (lines 77-108):
additionally drops every transaction whose category is not truthy. -/
def keepTransactionTVF (sel : List String) (selectedMonths : Int) (now : DateTime)
    (t : Transaction) : Bool :=
  if t.category == some excludedCategory then false
  else if ! strTruthy t.category then false
  else if decide (0 < sel.length) then
    sel.contains (t.category.getD "") && monthWindowKeep now selectedMonths t
  else monthWindowKeep now selectedMonths t

/-- filteredTransactions of TransactionVisualizationsFixed.tsx. -/
def filteredTransactionsTVF (sel : List String) (selectedMonths : Int)
    (now : DateTime) (ts : List Transaction) : List Transaction :=
  ts.filter (keepTransactionTVF sel selectedMonths now)

/-- Category bucket of a transaction: the JavaScript expression
transaction.category || 'Uncategorized' maps null and the empty string to the
placeholder. -/
def bucketCategory (t : Transaction) : String :=
  match t.category with
  | some c => if c = "" then "Uncategorized" else c
  | none => "Uncategorized"

/-- Currency conversion of both chart pipelines: multiply by the USD rate when
currency is USD, pass through otherwise. -/
def amountInClp (usdToClp : Rat) (t : Transaction) : Rat :=
  if t.currency == "USD" then t.amount * usdToClp else t.amount

/-- One step of the JavaScript reduce building a Record keyed by strings:
add v to the entry of k if present, else append (k, v); entry order is
first-insertion order, as Object.entries later reports it. -/
def upsertAmount (k : String) (v : Rat) :
    List (String × Rat) → List (String × Rat)
  | [] => [(k, v)]
  | (k0, v0) :: rest =>
    if k0 = k then (k0, v0 + v) :: rest else (k0, v0) :: upsertAmount k v rest

/-- categoryData of both chart components: reduce the transaction list into
per-bucket sums of the absolute converted amount. -/
def categoryData (usdToClp : Rat) (ts : List Transaction) : List (String × Rat) :=
  ts.foldl (fun acc t => upsertAmount (bucketCategory t) (jsAbs (amountInClp usdToClp t)) acc) []

/-- Insertion step of a stable descending sort by the numeric component,
matching the stable JavaScript sort with comparator (a, b) => b.amount -
a.amount: an element is placed after every earlier element whose amount is
greater than or equal to its own. -/
def insertSortedDesc (x : String × Rat) :
    List (String × Rat) → List (String × Rat)
  | [] => [x]
  | y :: ys => if y.2 < x.2 then x :: y :: ys else y :: insertSortedDesc x ys

/-- Stable descending sort by amount. -/
def sortByAmountDesc (l : List (String × Rat)) : List (String × Rat) :=
  l.foldl (fun acc x => insertSortedDesc x acc) []

/-- categoryChartData of both chart components: Object.entries of the reduce
result, sorted descending by amount, sliced to the top 8. -/
def categoryChartData (usdToClp : Rat) (ts : List Transaction) :
    List (String × Rat) :=
  (sortByAmountDesc (categoryData usdToClp ts)).take 8

/-- String(n).padStart(2, '0') for the rendered month number, whose decimal
form is never empty. -/
def padTwo (s : String) : String :=
  if s.length ≥ 2 then s else "0" ++ s

/-- Month key template of the client components:
getFullYear() ++ "-" ++ padded (getMonth() + 1). -/
def jsMonthKey (d : DateTime) : String :=
  toString d.year ++ "-" ++ padTwo (toString (d.month + 1))

/-- monthlyData of both chart components: reduce into per-month-key sums of
the absolute converted amount. -/
def monthlyData (usdToClp : Rat) (ts : List Transaction) : List (String × Rat) :=
  ts.foldl
    (fun acc t => upsertAmount (jsMonthKey t.transaction_timestamp_local)
      (jsAbs (amountInClp usdToClp t)) acc) []

/-- Insertion step of the ascending sort by month key
(localeCompare on zero-padded year-month keys behaves as ordinal string
comparison). -/
def insertSortedKeyAsc (x : String × Rat) :
    List (String × Rat) → List (String × Rat)
  | [] => [x]
  | y :: ys => if x.1 < y.1 then x :: y :: ys else y :: insertSortedKeyAsc x ys

/-- Ascending sort by month key. -/
def sortByKeyAsc (l : List (String × Rat)) : List (String × Rat) :=
  l.foldl (fun acc x => insertSortedKeyAsc x acc) []

/-- monthlyChartData of both chart components: entries sorted chronologically,
then slice(-6) keeps the last six. -/
def monthlyChartData (usdToClp : Rat) (ts : List Transaction) :
    List (String × Rat) :=
  let l := sortByKeyAsc (monthlyData usdToClp ts)
  l.drop (l.length - 6)

/-- Sum of absolute converted amounts, the reduce both components use for the
spending figures. -/
def sumAbsClp (usdToClp : Rat) (ts : List Transaction) : Rat :=
  ts.foldl (fun s t => s + jsAbs (amountInClp usdToClp t)) 0

/-- Total the claims ascribe to a category bucket: the sum of the absolute
converted amounts of the transactions falling into that bucket. -/
def bucketTotal (usdToClp : Rat) (ts : List Transaction) (c : String) : Rat :=
  sumAbsClp usdToClp (ts.filter (fun t => bucketCategory t == c))

/-- Month key of new Date(year, month - 1, 1): the Date constructor
renormalizes a negative month index into the previous year. -/
def jsLastMonthKey (now : DateTime) : String :=
  let total := now.year * 12 + (now.month - 1)
  jsMonthKey { year := total / 12, month := total % 12, day := 1, ms := 0 }

/-- Restriction of a transaction list to the current calendar month, the
filter the category chart applies in its current-month view and the
this-month spending figure applies. -/
def currentMonthOnly (now : DateTime) (ts : List Transaction) : List Transaction :=
  ts.filter (fun t => jsMonthKey t.transaction_timestamp_local == jsMonthKey now)

/-- currentMonthSpending of both components: spending summed over filtered
transactions whose month key equals the current month key. -/
def currentMonthSpending (usdToClp : Rat) (now : DateTime)
    (ts : List Transaction) : Rat :=
  sumAbsClp usdToClp (currentMonthOnly now ts)

/-- lastMonthSpending of both components. -/
def lastMonthSpending (usdToClp : Rat) (now : DateTime)
    (ts : List Transaction) : Rat :=
  sumAbsClp usdToClp
    (ts.filter (fun t => jsMonthKey t.transaction_timestamp_local == jsLastMonthKey now))

/-- monthOverMonthChange of both components
(TransactionCategorizer.tsx lines 961-963,
TransactionVisualizationsFixed.tsx lines 171-173):
lastMonthSpending > 0 ? ((current - last) / last) * 100 : 0. -/
def monthOverMonthChange (currentSpend lastSpend : Rat) : Rat :=
  if 0 < lastSpend then (currentSpend - lastSpend) / lastSpend * 100 else 0

/-- Deduplication with first-occurrence order, the behavior of spreading a
JavaScript Set built from an array. -/
def jsSetDedup : List String → List String
  | [] => []
  | x :: xs => x :: jsSetDedup (xs.filter (fun y => y != x))
termination_by l => l.length
decreasing_by
  simp only [List.length_cons]
  exact Nat.lt_succ_of_le (List.length_filter_le _ _)

/-- Set of categories present in a transaction list, as the components compute
it: map to category, drop falsy values, dedup. -/
def allCategoriesOf (ts : List Transaction) : List String :=
  jsSetDedup ((ts.filterMap (fun t => t.category)).filter (fun s => s != ""))

/-- Formalization of the distinctness asserted by claim C9: on some input,
filtering with the empty selected-category set yields a different list than
filtering with the set of all categories present in the data, in at least one
of the two components. -/
def emptySelectionDiffersFromAll : Prop :=
  ∃ (ts : List Transaction) (selectedMonths : Int) (now : DateTime),
    filteredTransactionsTC [] selectedMonths now ts ≠
      filteredTransactionsTC (allCategoriesOf ts) selectedMonths now ts ∨
    filteredTransactionsTVF [] selectedMonths now ts ≠
      filteredTransactionsTVF (allCategoriesOf ts) selectedMonths now ts

/-- Template transaction the concrete test inputs below vary. -/
def txBase : Transaction :=
  { payment_reason := none, amount := 100, currency := "CLP",
    transaction_timestamp_local := ⟨2025, 5, 15, 0⟩,
    category := none, description := none,
    transaction_type := none, transferation_type := none,
    transferation_destination := none, user_id := some "u1" }

/-- Row inserted with a credit-card transferation type and a conflicting
supplied category. -/
def c1Row : Transaction :=
  { txBase with
      category := some "Food"
      transferation_type := some "Pago de Tarjeta de Crédito Nacional" }

/-- Third-party transfer whose payment_reason differs from its
transferation_type. -/
def c2Tx : Transaction :=
  { txBase with
      payment_reason := some "Pago a Juan"
      transaction_type := some "Transferencia"
      transferation_type := some "Transferencia a Terceros" }

/-- Rule keyed by the effective payment reason of a third-party transfer. -/
def c3Rule : CategorizationRule :=
  { user_id := some "u1", payment_reason := "Transferencia a Terceros",
    category := "Transfers" }

/-- Uncategorized third-party transfer whose effective payment reason matches
c3Rule but whose raw payment_reason does not. -/
def c3Tx : Transaction :=
  { txBase with
      payment_reason := some "Pago a Juan"
      transaction_type := some "Transferencia"
      transferation_type := some "Transferencia a Terceros" }

/-- Rule mapping Netflix to Subscriptions. -/
def c3NetflixRule : CategorizationRule :=
  { user_id := some "u1", payment_reason := "Netflix", category := "Subscriptions" }

/-- Uncategorized ordinary transaction with payment_reason Netflix. -/
def c3NetflixTx : Transaction :=
  { txBase with payment_reason := some "Netflix" }

/-- Uncategorized Netflix transaction owned by user u1. -/
def c5Tx : Transaction :=
  { txBase with payment_reason := some "Netflix" }

/-- Rule owned by a different user u2 for the same payment reason. -/
def c5OtherRule : CategorizationRule :=
  { user_id := some "u2", payment_reason := "Netflix", category := "StreamingB" }

/-- Current date for the month-over-month witness: June 15, 2025. -/
def c7Now : DateTime := ⟨2025, 5, 15, 0⟩

/-- Two transactions: 150 in the current month, 100 in the previous month. -/
def c7Ts : List Transaction :=
  [{ txBase with
       amount := 150
       transaction_timestamp_local := ⟨2025, 5, 1, 0⟩ },
   { txBase with
       amount := 100
       transaction_timestamp_local := ⟨2025, 4, 10, 0⟩ }]

/-- Current date for the month-window counterexample: March 31, 2025, noon. -/
def c8Now : DateTime := ⟨2025, 2, 31, 43200000⟩

/-- Transaction dated February 15, 2025. -/
def c8Tx : Transaction :=
  { txBase with transaction_timestamp_local := ⟨2025, 1, 15, 0⟩ }

/-- Food transaction of 100 CLP. -/
def c6Food1 : Transaction :=
  { txBase with category := some "Food" }

/-- Food transaction of 10 USD. -/
def c6Food2 : Transaction :=
  { txBase with
      category := some "Food"
      amount := 10
      currency := "USD" }

/-- Transaction with the given category and amount. -/
def c6Cat (c : String) (a : Rat) : Transaction :=
  { txBase with
      category := some c
      amount := a }

/-- Ten transactions in ten categories with pairwise distinct totals. -/
def c6TenCats : List Transaction :=
  [c6Cat "C1" 10, c6Cat "C2" 20, c6Cat "C3" 30, c6Cat "C4" 40, c6Cat "C5" 50,
   c6Cat "C6" 60, c6Cat "C7" 70, c6Cat "C8" 80, c6Cat "C9" 90, c6Cat "C10" 100]

/-- Transaction dated May 10, 2025, for the month-window witness. -/
def c8WTx : Transaction :=
  { txBase with transaction_timestamp_local := ⟨2025, 4, 10, 30⟩ }

/-- Food-categorized transaction for the category-filter witness. -/
def c9Tx : Transaction :=
  { txBase with category := some "Food" }

/-- Row whose transferation_destination is the string null followed by a tab,
surrounded by whitespace. -/
def c10Tx : Transaction :=
  { txBase with transferation_destination := some " null\t" }

/-- Row whose transferation_destination is the upper-case string NULL. -/
def c10NullRow : Transaction :=
  { txBase with transferation_destination := some "NULL" }

/-! Helper lemmas about the trigger functions. -/

theorem sanitize_category (r : Transaction) :
    (sanitize_transactions_nulls r).category = r.category := by
  unfold sanitize_transactions_nulls
  split
  · split <;> rfl
  · rfl

theorem sanitize_payment_reason (r : Transaction) :
    (sanitize_transactions_nulls r).payment_reason = r.payment_reason := by
  unfold sanitize_transactions_nulls
  split
  · split <;> rfl
  · rfl

theorem auto_categorize_transferation_destination (rules : List CategorizationRule)
    (r : Transaction) :
    (auto_categorize_transaction rules r).transferation_destination =
      r.transferation_destination := by
  unfold auto_categorize_transaction
  split
  · rfl
  · split <;> rfl

theorem auto_categorize_transferation_type (rules : List CategorizationRule)
    (r : Transaction) :
    (auto_categorize_transaction rules r).transferation_type = r.transferation_type := by
  unfold auto_categorize_transaction
  split
  · rfl
  · split <;> rfl

theorem auto_categorize_payment_reason (rules : List CategorizationRule)
    (r : Transaction) :
    (auto_categorize_transaction rules r).payment_reason = r.payment_reason := by
  unfold auto_categorize_transaction
  split
  · rfl
  · split <;> rfl

theorem auto_categorize_category_of_cc (rules : List CategorizationRule)
    (r : Transaction) (h : isCreditCardPayment r.transferation_type = true) :
    (auto_categorize_transaction rules r).category = some "Pago de Tarjeta de Crédito" := by
  simp [auto_categorize_transaction, h]

theorem auto_categorize_category_of_rule (rules : List CategorizationRule)
    (r : Transaction) (p : String)
    (hcc : isCreditCardPayment r.transferation_type = false)
    (hcat : r.category = none) (hp : r.payment_reason = some p) :
    (auto_categorize_transaction rules r).category = lookupRuleCategory rules p := by
  simp [auto_categorize_transaction, hcc, hcat, hp]

theorem auto_categorize_category_of_some (rules : List CategorizationRule)
    (r : Transaction) (c : String)
    (hcc : isCreditCardPayment r.transferation_type = false)
    (hcat : r.category = some c) :
    (auto_categorize_transaction rules r).category = some c := by
  simp [auto_categorize_transaction, hcc, hcat]

/-! Helper lemmas about sums of absolute converted amounts. -/

theorem jsAbs_nonneg (q : Rat) : 0 ≤ jsAbs q := by
  unfold jsAbs
  split <;> linarith

theorem foldl_add_shift (f : Transaction → Rat) (a : Rat) (l : List Transaction) :
    l.foldl (fun s t => s + f t) a = a + l.foldl (fun s t => s + f t) 0 := by
  induction l generalizing a with
  | nil => simp [List.foldl]
  | cons t l ih =>
    simp only [List.foldl]
    rw [ih (a + f t), ih (0 + f t)]
    ring

theorem sumAbsClp_nil (usdToClp : Rat) : sumAbsClp usdToClp [] = 0 := rfl

theorem sumAbsClp_cons (usdToClp : Rat) (t : Transaction) (l : List Transaction) :
    sumAbsClp usdToClp (t :: l) = jsAbs (amountInClp usdToClp t) + sumAbsClp usdToClp l := by
  unfold sumAbsClp
  simp only [List.foldl]
  rw [foldl_add_shift]
  ring

theorem sumAbsClp_nonneg (usdToClp : Rat) (l : List Transaction) :
    0 ≤ sumAbsClp usdToClp l := by
  induction l with
  | nil => simp [sumAbsClp_nil]
  | cons t l ih =>
    rw [sumAbsClp_cons]
    have := jsAbs_nonneg (amountInClp usdToClp t)
    linarith

theorem bucketTotal_nil (usdToClp : Rat) (c : String) : bucketTotal usdToClp [] c = 0 := rfl

theorem bucketTotal_cons (usdToClp : Rat) (t : Transaction) (l : List Transaction)
    (c : String) :
    bucketTotal usdToClp (t :: l) c =
      if bucketCategory t == c then
        jsAbs (amountInClp usdToClp t) + bucketTotal usdToClp l c
      else bucketTotal usdToClp l c := by
  unfold bucketTotal
  simp only [List.filter]
  split
  · next h => simp [h, sumAbsClp_cons]
  · next h => simp [h]


/-! Helper lemmas about the Record built by the aggregation reduce. -/

theorem lookup_upsert_self (l : List (String × Rat)) (k : String) (v : Rat) :
    (upsertAmount k v l).lookup k = some (((l.lookup k).getD 0) + v) := by
  induction l with
  | nil => simp [upsertAmount, List.lookup]
  | cons hd tl ih =>
    rcases hd with ⟨k0, v0⟩
    by_cases h : k0 = k
    · subst h
      simp [upsertAmount, List.lookup]
    · have hb : (k == k0) = false := by simp [Ne.symm h]
      simp [upsertAmount, h, List.lookup, hb, ih]

theorem lookup_upsert_ne (l : List (String × Rat)) (k k1 : String) (v : Rat)
    (h : k1 ≠ k) :
    (upsertAmount k v l).lookup k1 = l.lookup k1 := by
  induction l with
  | nil =>
    have hb : (k1 == k) = false := by simp [h]
    simp [upsertAmount, List.lookup, hb]
  | cons hd tl ih =>
    rcases hd with ⟨k0, v0⟩
    by_cases h0 : k0 = k
    · subst h0
      have hb : (k1 == k0) = false := by simp [h]
      simp [upsertAmount, List.lookup, hb]
    · simp [upsertAmount, h0, List.lookup, ih]

theorem keys_upsert (l : List (String × Rat)) (k : String) (v : Rat) :
    (upsertAmount k v l).map Prod.fst =
      if k ∈ l.map Prod.fst then l.map Prod.fst else l.map Prod.fst ++ [k] := by
  induction l with
  | nil => simp [upsertAmount]
  | cons hd tl ih =>
    rcases hd with ⟨k0, v0⟩
    by_cases h : k0 = k
    · subst h
      simp [upsertAmount]
    · simp only [upsertAmount, if_neg h, List.map_cons, List.mem_cons]
      rw [ih]
      by_cases hm : k ∈ tl.map Prod.fst
      · simp [hm, Ne.symm h]
      · simp [hm, Ne.symm h]

theorem nodup_keys_upsert (l : List (String × Rat)) (k : String) (v : Rat)
    (h : (l.map Prod.fst).Nodup) :
    ((upsertAmount k v l).map Prod.fst).Nodup := by
  rw [keys_upsert]
  by_cases hm : k ∈ l.map Prod.fst
  · simpa [hm] using h
  · simp [hm, List.nodup_append, h]

theorem lookup_of_mem_of_nodup_keys {l : List (String × Rat)}
    (hnd : (l.map Prod.fst).Nodup) {c : String} {v : Rat} (hm : (c, v) ∈ l) :
    l.lookup c = some v := by
  induction l with
  | nil => cases hm
  | cons hd tl ih =>
    rcases hd with ⟨k0, v0⟩
    simp only [List.map_cons, List.nodup_cons] at hnd
    rcases List.mem_cons.mp hm with heq | hmem
    · cases heq
      simp [List.lookup]
    · have hne : c ≠ k0 := by
        intro hc
        subst hc
        exact hnd.1 (List.mem_map.mpr ⟨(c, v), hmem, rfl⟩)
      have hb : (c == k0) = false := by simp [hne]
      simp [List.lookup, hb, ih hnd.2 hmem]

theorem categoryData_loop_lookup (usdToClp : Rat) (ts : List Transaction) :
    ∀ (acc : List (String × Rat)) (c : String),
    (ts.foldl (fun acc t =>
        upsertAmount (bucketCategory t) (jsAbs (amountInClp usdToClp t)) acc) acc).lookup c =
      match acc.lookup c with
      | some v => some (v + bucketTotal usdToClp ts c)
      | none =>
        if ts.any (fun t => bucketCategory t == c) then
          some (bucketTotal usdToClp ts c)
        else none := by
  induction ts with
  | nil =>
    intro acc c
    cases h : acc.lookup c <;> simp [h, bucketTotal_nil]
  | cons t ts ih =>
    intro acc c
    simp only [List.foldl]
    rw [ih]
    by_cases hbc : (bucketCategory t == c) = true
    · have hc : bucketCategory t = c := by simpa using hbc
      rw [hc, lookup_upsert_self]
      cases hacc : acc.lookup c <;>
        simp [hacc, bucketTotal_cons, hbc, List.any_cons, add_assoc]
    · have hb : (bucketCategory t == c) = false := by
        simpa using hbc
      have hne : c ≠ bucketCategory t := by
        intro h
        rw [h] at hb
        simp at hb
      rw [lookup_upsert_ne _ _ _ _ hne]
      cases hacc : acc.lookup c <;>
        simp [hacc, bucketTotal_cons, hb, List.any_cons]

theorem nodup_keys_categoryData_loop (usdToClp : Rat) (ts : List Transaction) :
    ∀ (acc : List (String × Rat)), (acc.map Prod.fst).Nodup →
    ((ts.foldl (fun acc t =>
        upsertAmount (bucketCategory t) (jsAbs (amountInClp usdToClp t)) acc) acc).map
      Prod.fst).Nodup := by
  induction ts with
  | nil => intro acc h; simpa using h
  | cons t ts ih =>
    intro acc h
    exact ih _ (nodup_keys_upsert _ _ _ h)

theorem mem_categoryData_eq_bucketTotal (usdToClp : Rat) (ts : List Transaction)
    (c : String) (v : Rat) (h : (c, v) ∈ categoryData usdToClp ts) :
    v = bucketTotal usdToClp ts c := by
  have hnd := nodup_keys_categoryData_loop usdToClp ts [] (by simp)
  have hl := lookup_of_mem_of_nodup_keys hnd h
  unfold categoryData at hl
  rw [categoryData_loop_lookup usdToClp ts [] c] at hl
  simp only [List.lookup] at hl
  by_cases ha : ts.any (fun t => bucketCategory t == c) = true
  · rw [if_pos ha] at hl
    exact (Option.some_injective _ hl).symm
  · rw [if_neg ha] at hl
    cases hl

/-! Helper lemmas about the stable descending sort. -/

theorem mem_insertSortedDesc (x y : String × Rat) (l : List (String × Rat)) :
    y ∈ insertSortedDesc x l ↔ y = x ∨ y ∈ l := by
  induction l with
  | nil => simp [insertSortedDesc]
  | cons z zs ih =>
    unfold insertSortedDesc
    split
    · simp only [List.mem_cons]
    · simp only [List.mem_cons, ih]
      tauto

theorem sorted_insertSortedDesc (x : String × Rat) (l : List (String × Rat))
    (h : l.Pairwise (fun a b => b.2 ≤ a.2)) :
    (insertSortedDesc x l).Pairwise (fun a b => b.2 ≤ a.2) := by
  induction l with
  | nil => simp [insertSortedDesc]
  | cons z zs ih =>
    rw [List.pairwise_cons] at h
    unfold insertSortedDesc
    split
    · next hlt =>
      rw [List.pairwise_cons]
      constructor
      · intro b hb
        rcases List.mem_cons.mp hb with hb | hb
        · subst hb; exact le_of_lt hlt
        · exact (h.1 b hb).trans (le_of_lt hlt)
      · rw [List.pairwise_cons]
        exact h
    · next hge =>
      rw [List.pairwise_cons]
      constructor
      · intro b hb
        rcases (mem_insertSortedDesc x b zs).mp hb with hb | hb
        · subst hb; exact le_of_not_lt hge
        · exact h.1 b hb
      · exact ih h.2

theorem mem_foldl_insertSortedDesc (l : List (String × Rat)) :
    ∀ (acc : List (String × Rat)) (y : String × Rat),
    y ∈ l.foldl (fun acc x => insertSortedDesc x acc) acc ↔ y ∈ acc ∨ y ∈ l := by
  induction l with
  | nil => simp
  | cons z zs ih =>
    intro acc y
    simp only [List.foldl, ih, mem_insertSortedDesc, List.mem_cons]
    tauto

theorem sorted_foldl_insertSortedDesc (l : List (String × Rat)) :
    ∀ (acc : List (String × Rat)), acc.Pairwise (fun a b => b.2 ≤ a.2) →
    (l.foldl (fun acc x => insertSortedDesc x acc) acc).Pairwise (fun a b => b.2 ≤ a.2) := by
  induction l with
  | nil => intro acc h; simpa using h
  | cons z zs ih =>
    intro acc h
    exact ih _ (sorted_insertSortedDesc z acc h)

theorem mem_sortByAmountDesc (l : List (String × Rat)) (y : String × Rat) :
    y ∈ sortByAmountDesc l ↔ y ∈ l := by
  unfold sortByAmountDesc
  rw [mem_foldl_insertSortedDesc]
  simp

theorem sorted_sortByAmountDesc (l : List (String × Rat)) :
    (sortByAmountDesc l).Pairwise (fun a b => b.2 ≤ a.2) := by
  unfold sortByAmountDesc
  exact sorted_foldl_insertSortedDesc l [] (by simp)

/-! Helper lemmas about Set-style deduplication and membership. -/

theorem mem_jsSetDedup (l : List String) (x : String) :
    x ∈ jsSetDedup l ↔ x ∈ l := by
  induction l using jsSetDedup.induct with
  | case1 => simp [jsSetDedup]
  | case2 hd tl ih =>
    unfold jsSetDedup
    simp only [List.mem_cons, ih, List.mem_filter, bne_iff_ne]
    by_cases hx : x = hd
    · subst hx; tauto
    · tauto

theorem contains_eq_true_of_mem {l : List String} {c : String} (h : c ∈ l) :
    l.contains c = true := by
  simpa using h

/-! Claim theorems. -/

/-- C1: for every transaction row being inserted or updated whose
transferation_type is one of the known credit-card-payment phrasings, the
classifier stores category Pago de Tarjeta de Crédito, regardless of the
supplied category, and the same override re-applies on every update while
transferation_type still matches. -/
theorem c1_credit_card_override (rules : List CategorizationRule)
    (row : Transaction) (s : String)
    (hs : row.transferation_type = some s)
    (hcc : s ∈ creditCardTransferationTypes) :
    (insertTransactionRow rules row).category = some "Pago de Tarjeta de Crédito" ∧
    (updateTransactionRow rules row).category = some "Pago de Tarjeta de Crédito" := by
  have hpay : isCreditCardPayment row.transferation_type = true := by
    rw [hs]
    exact contains_eq_true_of_mem hcc
  constructor
  · unfold insertTransactionRow
    rw [sanitize_category]
    apply auto_categorize_category_of_cc
    rw [auto_categorize_transferation_type]
    exact hpay
  · unfold updateTransactionRow
    rw [sanitize_category]
    exact auto_categorize_category_of_cc rules row hpay

/-- C1 witness: a row carrying category Food and the national
credit-card-payment transferation type stores as Pago de Tarjeta de
Crédito on insert and on update. -/
theorem c1_witness :
    (insertTransactionRow [] c1Row).category = some "Pago de Tarjeta de Crédito" ∧
    (updateTransactionRow [] c1Row).category = some "Pago de Tarjeta de Crédito" :=
  c1_credit_card_override [] c1Row "Pago de Tarjeta de Crédito Nacional" rfl (by decide)

/-- C2 counterexample: on a third-party transfer whose transferation_type
differs from its payment_reason, the key the database trigger matches rules on
differs from the client effectivePaymentReason, so the two key functions are
not equal. -/
theorem c2_counterexample : dbRuleMatchKey c2Tx ≠ effectivePaymentReason c2Tx := by
  decide

/-- C2 amended: the trigger key (raw payment_reason) and the client
effectivePaymentReason agree on a transaction exactly when it is not a
third-party transfer or its transferation_type coincides with its
payment_reason. -/
theorem c2_keys_agree_iff (t : Transaction) :
    effectivePaymentReason t = dbRuleMatchKey t ↔
      (isTransferToThird t = false ∨ t.transferation_type = t.payment_reason) := by
  unfold effectivePaymentReason dbRuleMatchKey
  by_cases h : isTransferToThird t = true
  · simp [h]
  · have hf : isTransferToThird t = false := by simpa using h
    simp [hf]

/-- C2 witness: on an ordinary transaction the two keys agree. -/
theorem c2_witness : effectivePaymentReason txBase = dbRuleMatchKey txBase :=
  (c2_keys_agree_iff txBase).mpr (Or.inl (by decide))

/-- C3 counterexample: an uncategorized third-party transfer whose effective
payment reason has a matching rule stays uncategorized, because the trigger
looks rules up by raw payment_reason. -/
theorem c3_counterexample :
    isCreditCardPayment c3Tx.transferation_type = false ∧
    c3Tx.category = none ∧
    c3Tx.payment_reason = some "Pago a Juan" ∧
    effectivePaymentReason c3Tx = some c3Rule.payment_reason ∧
    c3Rule.category = "Transfers" ∧
    (insertTransactionRow [c3Rule] c3Tx).category = none ∧
    (updateTransactionRow [c3Rule] c3Tx).category = none := by
  decide

/-- C3 amended: when the override does not fire, category is null and
payment_reason is non-null, the stored category is the category of the first
rule whose payment_reason equals the transaction's raw payment_reason, and
null when no rule matches; the lookup uses raw payment_reason, not the
effective payment reason. -/
theorem c3_rule_lookup_on_raw_payment_reason (rules : List CategorizationRule)
    (row : Transaction) (p : String)
    (hcc : isCreditCardPayment row.transferation_type = false)
    (hcat : row.category = none) (hp : row.payment_reason = some p) :
    (insertTransactionRow rules row).category = lookupRuleCategory rules p ∧
    (updateTransactionRow rules row).category = lookupRuleCategory rules p := by
  have h1 : (auto_categorize_transaction rules row).category = lookupRuleCategory rules p :=
    auto_categorize_category_of_rule rules row p hcc hcat hp
  have hcc2 : isCreditCardPayment
      (auto_categorize_transaction rules row).transferation_type = false := by
    rw [auto_categorize_transferation_type]
    exact hcc
  constructor
  · unfold insertTransactionRow
    rw [sanitize_category]
    cases hlook : lookupRuleCategory rules p with
    | none =>
      have h1n : (auto_categorize_transaction rules row).category = none := by
        rw [h1, hlook]
      have hp2 : (auto_categorize_transaction rules row).payment_reason = some p := by
        rw [auto_categorize_payment_reason]
        exact hp
      rw [auto_categorize_category_of_rule rules _ p hcc2 h1n hp2, hlook]
    | some ccat =>
      have h1s : (auto_categorize_transaction rules row).category = some ccat := by
        rw [h1, hlook]
      exact auto_categorize_category_of_some rules _ ccat hcc2 h1s
  · unfold updateTransactionRow
    rw [sanitize_category]
    exact h1

/-- C3 witness: after upserting the Netflix-to-Subscriptions rule, inserting
an uncategorized transaction with payment_reason Netflix stores category
Subscriptions. -/
theorem c3_witness :
    (insertTransactionRow [c3NetflixRule] c3NetflixTx).category = some "Subscriptions" ∧
    (updateTransactionRow [c3NetflixRule] c3NetflixTx).category = some "Subscriptions" :=
  ⟨(c3_rule_lookup_on_raw_payment_reason [c3NetflixRule] c3NetflixTx "Netflix"
      (by decide) rfl rfl).1.trans (by decide),
   (c3_rule_lookup_on_raw_payment_reason [c3NetflixRule] c3NetflixTx "Netflix"
      (by decide) rfl rfl).2.trans (by decide)⟩

/-- C5: two rule-table states that agree on user u1's rules (none) but differ
in user u2's rules give u1's transaction different stored categories, so
classification reads other users' rules. -/
theorem c5_cross_user_rule_leak :
    ([] : List CategorizationRule).filter (fun r => r.user_id == some "u1") =
      [c5OtherRule].filter (fun r => r.user_id == some "u1") ∧
    (insertTransactionRow [] c5Tx).category = none ∧
    (insertTransactionRow [c5OtherRule] c5Tx).category = some "StreamingB" := by
  decide

/-- C7: the month-over-month delta equals
(current - previous) / previous * 100 whenever the previous-month total is
nonzero, and 0 when it is zero; in particular delta(150, 100) = 50 and
delta(0, 0) = 0. -/
theorem c7_month_over_month_delta (usdToClp : Rat) (now : DateTime)
    (ts : List Transaction) :
    (lastMonthSpending usdToClp now ts ≠ 0 →
      monthOverMonthChange (currentMonthSpending usdToClp now ts)
          (lastMonthSpending usdToClp now ts) =
        (currentMonthSpending usdToClp now ts - lastMonthSpending usdToClp now ts) /
          lastMonthSpending usdToClp now ts * 100) ∧
    (lastMonthSpending usdToClp now ts = 0 →
      monthOverMonthChange (currentMonthSpending usdToClp now ts)
          (lastMonthSpending usdToClp now ts) = 0) ∧
    monthOverMonthChange 150 100 = 50 ∧
    monthOverMonthChange 0 0 = 0 := by
  refine ⟨?_, ?_, by norm_num [monthOverMonthChange], by norm_num [monthOverMonthChange]⟩
  · intro h
    have hnn : 0 ≤ lastMonthSpending usdToClp now ts := sumAbsClp_nonneg _ _
    have hpos : 0 < lastMonthSpending usdToClp now ts :=
      lt_of_le_of_ne hnn (Ne.symm h)
    unfold monthOverMonthChange
    rw [if_pos hpos]
  · intro h
    unfold monthOverMonthChange
    rw [h]
    norm_num

/-- C7 witness: with a 150 current-month transaction and a 100 previous-month
transaction the previous total is nonzero and the delta follows the
formula. -/
theorem c7_witness :
    lastMonthSpending 900 c7Now c7Ts ≠ 0 ∧
    monthOverMonthChange (currentMonthSpending 900 c7Now c7Ts)
        (lastMonthSpending 900 c7Now c7Ts) =
      (currentMonthSpending 900 c7Now c7Ts - lastMonthSpending 900 c7Now c7Ts) /
        lastMonthSpending 900 c7Now c7Ts * 100 := by
  have hne : lastMonthSpending 900 c7Now c7Ts ≠ 0 := by
    simp +decide only [lastMonthSpending, jsLastMonthKey, jsMonthKey, padTwo,
      c7Now, c7Ts, txBase, List.filter, sumAbsClp, List.foldl, amountInClp,
      jsAbs, reduceIte]
    norm_num
  exact ⟨hne, (c7_month_over_month_delta 900 c7Now c7Ts).1 hne⟩

/-- C10 counterexample: a destination equal to null after whitespace trimming
and lowercasing, but carrying a tab, is stored unchanged, because the trigger
trims spaces only. -/
theorem c10_counterexample :
    wsTrim (pgLower " null\t") = "null" ∧
    (insertTransactionRow [] c10Tx).transferation_destination = some " null\t" ∧
    (updateTransactionRow [] c10Tx).transferation_destination = some " null\t" := by
  decide

/-- C10 amended: on every insert and update, a transferation_destination that
equals null after trimming surrounding space characters and lowercasing is
stored as an actual null, independently of classification. -/
theorem c10_sanitize_null_string (rules : List CategorizationRule)
    (row : Transaction) (d : String)
    (hd : row.transferation_destination = some d)
    (hnull : pgTrim (pgLower d) = "null") :
    (insertTransactionRow rules row).transferation_destination = none ∧
    (updateTransactionRow rules row).transferation_destination = none := by
  have key : ∀ r : Transaction, r.transferation_destination = some d →
      (sanitize_transactions_nulls r).transferation_destination = none := by
    intro r hr
    unfold sanitize_transactions_nulls
    simp only [hr]
    rw [if_pos hnull]
  constructor
  · unfold insertTransactionRow
    apply key
    rw [auto_categorize_transferation_destination,
      auto_categorize_transferation_destination]
    exact hd
  · unfold updateTransactionRow
    apply key
    rw [auto_categorize_transferation_destination]
    exact hd

/-- C10 witness: a row written with destination NULL is stored with an actual
null destination on insert and update. -/
theorem c10_witness :
    (insertTransactionRow [] c10NullRow).transferation_destination = none ∧
    (updateTransactionRow [] c10NullRow).transferation_destination = none :=
  c10_sanitize_null_string [] c10NullRow "NULL" rfl (by decide)

/-- C4: both filtered lists never retain a credit-card-settlement transaction,
and removing those transactions from the input leaves every filtered list,
category-totals output and monthly-totals output unchanged, in both view
modes. -/
theorem c4_credit_card_never_in_output (sel : List String) (selectedMonths : Int)
    (now : DateTime) (usdToClp : Rat) (ts : List Transaction) :
    (∀ t ∈ filteredTransactionsTC sel selectedMonths now ts,
      t.category ≠ some "Pago de Tarjeta de Crédito") ∧
    (∀ t ∈ filteredTransactionsTVF sel selectedMonths now ts,
      t.category ≠ some "Pago de Tarjeta de Crédito") ∧
    filteredTransactionsTC sel selectedMonths now
        (ts.filter (fun t => !(t.category == some "Pago de Tarjeta de Crédito"))) =
      filteredTransactionsTC sel selectedMonths now ts ∧
    filteredTransactionsTVF sel selectedMonths now
        (ts.filter (fun t => !(t.category == some "Pago de Tarjeta de Crédito"))) =
      filteredTransactionsTVF sel selectedMonths now ts ∧
    categoryChartData usdToClp (filteredTransactionsTC sel selectedMonths now
        (ts.filter (fun t => !(t.category == some "Pago de Tarjeta de Crédito")))) =
      categoryChartData usdToClp (filteredTransactionsTC sel selectedMonths now ts) ∧
    categoryChartData usdToClp (currentMonthOnly now (filteredTransactionsTVF sel
        selectedMonths now
        (ts.filter (fun t => !(t.category == some "Pago de Tarjeta de Crédito"))))) =
      categoryChartData usdToClp
        (currentMonthOnly now (filteredTransactionsTVF sel selectedMonths now ts)) ∧
    monthlyChartData usdToClp (filteredTransactionsTC sel selectedMonths now
        (ts.filter (fun t => !(t.category == some "Pago de Tarjeta de Crédito")))) =
      monthlyChartData usdToClp (filteredTransactionsTC sel selectedMonths now ts) ∧
    monthlyChartData usdToClp (filteredTransactionsTVF sel selectedMonths now
        (ts.filter (fun t => !(t.category == some "Pago de Tarjeta de Crédito")))) =
      monthlyChartData usdToClp (filteredTransactionsTVF sel selectedMonths now ts) := by
  have hkeepTC : ∀ t, keepTransactionTC sel selectedMonths now t = true →
      (t.category == some "Pago de Tarjeta de Crédito") = false := by
    intro t h
    by_cases hc : (t.category == some excludedCategory) = true
    · unfold keepTransactionTC at h
      rw [if_pos hc] at h
      cases h
    · simpa [excludedCategory] using hc
  have hkeepTVF : ∀ t, keepTransactionTVF sel selectedMonths now t = true →
      (t.category == some "Pago de Tarjeta de Crédito") = false := by
    intro t h
    by_cases hc : (t.category == some excludedCategory) = true
    · unfold keepTransactionTVF at h
      rw [if_pos hc] at h
      cases h
    · simpa [excludedCategory] using hc
  have heqTC : filteredTransactionsTC sel selectedMonths now
      (ts.filter (fun t => !(t.category == some "Pago de Tarjeta de Crédito"))) =
      filteredTransactionsTC sel selectedMonths now ts := by
    unfold filteredTransactionsTC
    rw [List.filter_filter]
    apply List.filter_congr
    intro t _
    cases hk : keepTransactionTC sel selectedMonths now t
    · simp
    · simp [hkeepTC t hk]
  have heqTVF : filteredTransactionsTVF sel selectedMonths now
      (ts.filter (fun t => !(t.category == some "Pago de Tarjeta de Crédito"))) =
      filteredTransactionsTVF sel selectedMonths now ts := by
    unfold filteredTransactionsTVF
    rw [List.filter_filter]
    apply List.filter_congr
    intro t _
    cases hk : keepTransactionTVF sel selectedMonths now t
    · simp
    · simp [hkeepTVF t hk]
  refine ⟨?_, ?_, heqTC, heqTVF, by rw [heqTC], by rw [heqTVF], by rw [heqTC],
    by rw [heqTVF]⟩
  · intro t ht
    unfold filteredTransactionsTC at ht
    have hk := (List.mem_filter.mp ht).2
    have := hkeepTC t hk
    simpa using this
  · intro t ht
    unfold filteredTransactionsTVF at ht
    have hk := (List.mem_filter.mp ht).2
    have := hkeepTVF t hk
    simpa using this

/-- C4 witness: with one food transaction and one credit-card settlement, the
filtered list drops the settlement and its category stays out. -/
theorem c4_witness :
    ({ txBase with category := some "Food" } : Transaction).category ≠
      some "Pago de Tarjeta de Crédito" :=
  (c4_credit_card_never_in_output [] 999 ⟨2025, 5, 15, 0⟩ 900
      [{ txBase with category := some "Food" }]).1
    { txBase with category := some "Food" } (by decide)

/-- C6: every entry of the category-totals output carries the sum of the
absolute converted amounts of its bucket, the output is sorted descending by
total with at most 8 entries; on the Food example with rate 900 the total is
9100, and on ten categories with distinct totals the output is exactly the 8
largest, sorted descending. -/
theorem c6_category_totals (usdToClp : Rat) (ts : List Transaction) :
    (∀ p ∈ categoryChartData usdToClp ts, p.2 = bucketTotal usdToClp ts p.1) ∧
    (categoryChartData usdToClp ts).Pairwise (fun a b => b.2 ≤ a.2) ∧
    (categoryChartData usdToClp ts).length ≤ 8 ∧
    categoryChartData 900 [c6Food1, c6Food2] = [("Food", 9100)] ∧
    categoryChartData 900 c6TenCats =
      [("C10", 100), ("C9", 90), ("C8", 80), ("C7", 70),
       ("C6", 60), ("C5", 50), ("C4", 40), ("C3", 30)] := by
  refine ⟨?_, ?_, ?_, ?_, ?_⟩
  · intro p hp
    have hp2 : p ∈ sortByAmountDesc (categoryData usdToClp ts) :=
      List.mem_of_mem_take hp
    have hp3 : p ∈ categoryData usdToClp ts := (mem_sortByAmountDesc _ _).mp hp2
    obtain ⟨c, v⟩ := p
    exact mem_categoryData_eq_bucketTotal usdToClp ts c v hp3
  · exact (sorted_sortByAmountDesc _).sublist (List.take_sublist _ _)
  · exact List.length_take_le _ _
  · simp +decide only [categoryChartData, categoryData, upsertAmount,
      bucketCategory, amountInClp, jsAbs, sortByAmountDesc, insertSortedDesc,
      c6Food1, c6Food2, txBase, reduceIte, List.foldl, List.take]
    norm_num
  · simp +decide only [categoryChartData, categoryData, upsertAmount,
      bucketCategory, amountInClp, jsAbs, sortByAmountDesc, insertSortedDesc,
      c6TenCats, c6Cat, txBase, reduceIte, List.foldl, List.take]

/-- C6 witness: on the Food example the output entry carries the bucket total
of Food. -/
theorem c6_witness : (9100 : Rat) = bucketTotal 900 [c6Food1, c6Food2] "Food" :=
  (c6_category_totals 900 [c6Food1, c6Food2]).1 ("Food", 9100) (by
    rw [(c6_category_totals 900 [c6Food1, c6Food2]).2.2.2.1]
    simp)

/-- C8 counterexample: on March 31, 2025 with a 1-month window, a February 15
transaction satisfies the claimed calendar-month condition yet the filter
drops it, because setMonth rolls the cutoff over to March 1. -/
theorem c8_counterexample :
    (1 : Int) < 999 ∧
    monthIndex c8Now - 1 ≤ monthIndex c8Tx.transaction_timestamp_local ∧
    monthWindowKeep c8Now 1 c8Tx = false := by
  decide

/-- C8 amended: the filter keeps a transaction exactly when its date is not
before the cutoff; when the current day-of-month does not exceed the length of
the month N months back (so setMonth does not roll over), this is equivalent
to the transaction's calendar month index being at least the current month
index minus N. -/
theorem c8_month_window (now : DateTime) (n : Int) (t : Transaction)
    (hn : n < 999)
    (hoverflow : now.day ≤ daysInMonth ((now.year * 12 + now.month - n) / 12)
      ((now.year * 12 + now.month - n) % 12))
    (hd : 1 ≤ t.transaction_timestamp_local.day)
    (hms : 0 ≤ t.transaction_timestamp_local.ms)
    (htm0 : 0 ≤ t.transaction_timestamp_local.month)
    (htm1 : t.transaction_timestamp_local.month ≤ 11) :
    monthWindowKeep now n t = true ↔
      monthIndex now - n ≤ monthIndex t.transaction_timestamp_local := by
  unfold monthWindowKeep
  rw [if_pos hn]
  unfold cutoffDate jsSetMonthSub
  simp only
  rw [if_neg (not_lt.mpr hoverflow)]
  unfold DateTime.jsLt monthIndex
  simp only [Bool.not_eq_eq_eq_not, Bool.not_true, Bool.or_eq_false_iff,
    Bool.and_eq_false_iff, decide_eq_false_iff_not, not_lt, beq_eq_false_iff_ne,
    ne_eq]
  constructor
  · intro h
    omega
  · intro h
    omega

/-- C8 witness: on June 15, 2025 with a 3-month window, a May 10 transaction
is kept, as its calendar month index is within range. -/
theorem c8_witness : monthWindowKeep ⟨2025, 5, 15, 0⟩ 3 c8WTx = true :=
  (c8_month_window ⟨2025, 5, 15, 0⟩ 3 c8WTx (by decide) (by decide) (by decide)
    (by decide) (by decide) (by decide)).mpr (by decide)

theorem keepTC_contains (sel : List String) (selectedMonths : Int)
    (now : DateTime) (t : Transaction) (c : String)
    (hk : keepTransactionTC sel selectedMonths now t = true)
    (hc : t.category = some c) (hce : c ≠ "") (hlen : 0 < sel.length) :
    sel.contains c = true := by
  unfold keepTransactionTC at hk
  rw [hc] at hk
  by_cases hex : ((some c : Option String) == some excludedCategory) = true
  · rw [if_pos hex] at hk
    cases hk
  · rw [if_neg hex] at hk
    have hcond : (decide (0 < sel.length) && strTruthy (some c)) = true := by
      simp [strTruthy, hce, hlen]
    rw [if_pos hcond] at hk
    simp only [Option.getD_some, Bool.and_eq_true] at hk
    exact hk.1

theorem keepTVF_contains (sel : List String) (selectedMonths : Int)
    (now : DateTime) (t : Transaction) (c : String)
    (hk : keepTransactionTVF sel selectedMonths now t = true)
    (hc : t.category = some c) (hlen : 0 < sel.length) :
    sel.contains c = true := by
  unfold keepTransactionTVF at hk
  rw [hc] at hk
  by_cases hex : ((some c : Option String) == some excludedCategory) = true
  · rw [if_pos hex] at hk
    cases hk
  · rw [if_neg hex] at hk
    by_cases hce : c = ""
    · subst hce
      simp [strTruthy] at hk
    · have hst : (! strTruthy (some c)) = false := by simp [strTruthy, hce]
      rw [hst] at hk
      simp only [Bool.false_eq_true, if_false] at hk
      rw [if_pos (by simpa using hlen)] at hk
      simp only [Option.getD_some, Bool.and_eq_true] at hk
      exact hk.1

theorem empty_sel_eq_all_sel (ts : List Transaction) (selectedMonths : Int)
    (now : DateTime) :
    filteredTransactionsTC [] selectedMonths now ts =
      filteredTransactionsTC (allCategoriesOf ts) selectedMonths now ts ∧
    filteredTransactionsTVF [] selectedMonths now ts =
      filteredTransactionsTVF (allCategoriesOf ts) selectedMonths now ts := by
  have hmem : ∀ t ∈ ts, ∀ c, t.category = some c → c ≠ "" →
      c ∈ allCategoriesOf ts := by
    intro t ht c hc hce
    unfold allCategoriesOf
    rw [mem_jsSetDedup]
    refine List.mem_filter.mpr ⟨List.mem_filterMap.mpr ⟨t, ht, hc⟩, ?_⟩
    simpa using hce
  constructor
  · unfold filteredTransactionsTC
    apply List.filter_congr
    intro t ht
    unfold keepTransactionTC
    cases hc : t.category with
    | none => simp [strTruthy]
    | some c =>
      by_cases hce : c = ""
      · subst hce
        simp [strTruthy]
      · have hin := hmem t ht c hc hce
        have hlen : 0 < (allCategoriesOf ts).length := List.length_pos_of_mem hin
        have hcont := contains_eq_true_of_mem hin
        simp [strTruthy, hce, hlen, hcont, hin]
  · unfold filteredTransactionsTVF
    apply List.filter_congr
    intro t ht
    unfold keepTransactionTVF
    cases hc : t.category with
    | none => simp [strTruthy]
    | some c =>
      by_cases hce : c = ""
      · subst hce
        simp [strTruthy]
      · have hin := hmem t ht c hc hce
        have hlen : 0 < (allCategoriesOf ts).length := List.length_pos_of_mem hin
        have hcont := contains_eq_true_of_mem hin
        simp [strTruthy, hce, hlen, hcont, hin]

/-- C9 counterexample: on no input does the empty selected-category set yield
a different filtered list than the set of all categories present in the data;
the claimed distinctness of the two filter states fails. -/
theorem c9_counterexample : ¬ emptySelectionDiffersFromAll := by
  rintro ⟨ts, selectedMonths, now, h | h⟩
  · exact h (empty_sel_eq_all_sel ts selectedMonths now).1
  · exact h (empty_sel_eq_all_sel ts selectedMonths now).2

/-- C9 amended: with a non-empty selected set, a filtered transaction whose
category is a string c (non-empty for the TransactionCategorizer list, any
for the Fixed list) has c in the selected set; and the empty selected set
yields the same filtered list as selecting every category present in the
data, in both components. -/
theorem c9_selected_category_filter (sel : List String) (selectedMonths : Int)
    (now : DateTime) (ts : List Transaction) :
    (∀ t ∈ filteredTransactionsTC sel selectedMonths now ts, ∀ c,
      t.category = some c → c ≠ "" → sel ≠ [] → sel.contains c = true) ∧
    (∀ t ∈ filteredTransactionsTVF sel selectedMonths now ts, ∀ c,
      t.category = some c → sel ≠ [] → sel.contains c = true) ∧
    filteredTransactionsTC [] selectedMonths now ts =
      filteredTransactionsTC (allCategoriesOf ts) selectedMonths now ts ∧
    filteredTransactionsTVF [] selectedMonths now ts =
      filteredTransactionsTVF (allCategoriesOf ts) selectedMonths now ts := by
  refine ⟨?_, ?_, (empty_sel_eq_all_sel ts selectedMonths now).1,
    (empty_sel_eq_all_sel ts selectedMonths now).2⟩
  · intro t ht c hc hce hsel
    unfold filteredTransactionsTC at ht
    exact keepTC_contains sel selectedMonths now t c (List.mem_filter.mp ht).2 hc
      hce (List.length_pos.mpr hsel)
  · intro t ht c hc hsel
    unfold filteredTransactionsTVF at ht
    exact keepTVF_contains sel selectedMonths now t c (List.mem_filter.mp ht).2 hc
      (List.length_pos.mpr hsel)

/-- C9 witness: a Food transaction retained under the selection consisting of
Food alone has Food in the selection. -/
theorem c9_witness : (["Food"] : List String).contains "Food" = true :=
  (c9_selected_category_filter ["Food"] 999 ⟨2025, 5, 15, 0⟩ [c9Tx]).1 c9Tx
    (by decide) "Food" (by decide) (by decide) (by decide)

end TxApp
